import Mathlib

/-!
# Verification of the Ctrl-A sign-language detection loop

A shallow embedding of the gesture-recognition and text-accumulation core of
`sign_language_server.py`: the confidence gate, the debounce/cooldown logic,
the action-gesture dispatch on the text buffer, the feature builder, the
classifier adapter, and the `start_detection` lifecycle endpoint.

Coordinates and probabilities are modelled as rationals; the Python dicts
become association lists; the per-frame mutation of the module-level globals
(`last_predicted_character`, `frames_since_last_char`, `text_buffer`) becomes
explicit state passing through `stepFrame`.
-/

namespace CtrlA

/-- Inference settings: global confidence threshold (`CONFIDENCE_THRESHOLD = 0.65`). -/
def CONFIDENCE_THRESHOLD : ℚ := 65 / 100

/-- Gesture-to-action mappings (`ACTION_GESTURES` dict, in source order). -/
def ACTION_GESTURES : List (String × String) :=
  [("SPACE", "SPACE"), ("BACKSPACE", "BACKSPACE"), ("DELETE", "DELETE"),
   ("S", "SPACE"), ("B", "BACKSPACE"), ("D", "DELETE")]

/-- Per-class confidence thresholds (`PER_CLASS_THRESHOLDS` dict, in source order). -/
def PER_CLASS_THRESHOLDS : List (String × ℚ) :=
  [("C", 22 / 100), ("D", 45 / 100), ("U", 40 / 100), ("N", 20 / 100),
   ("2", 50 / 100), ("1", 50 / 100), ("I", 30 / 100)]

/-- Labels dictionary (`labels_dict`): class index to character. -/
def labels_dict : List (Int × String) :=
  [(0, "1"), (1, "2"), (2, "3"), (3, "4"), (4, "5"), (5, "6"), (6, "7"), (7, "8"),
   (8, "9"), (9, "A"), (10, "B"), (11, "C"), (12, "D"), (13, "E"), (14, "F"),
   (15, "G"), (16, "H"), (17, "I"), (18, "J"), (19, "K"), (20, "L"), (21, "M"),
   (22, "N"), (23, "O"), (24, "P"), (25, "Q"), (26, "R"), (27, "S"), (28, "T"),
   (29, "U"), (30, "V"), (31, "W"), (32, "X"), (33, "Y"), (34, "Z")]

/-- Debounce cooldown (`repeat_cooldown_frames = 5`). -/
def repeat_cooldown_frames : Nat := 5

/-- Lookup `labels_dict[predicted_label]` with the `"Unknown"` sentinel for indices
outside the dictionary (`if predicted_label in labels_dict` guard). -/
def lookupLabel (predictedLabel : Int) : String :=
  (labels_dict.lookup predictedLabel).getD "Unknown"

/-- The per-class threshold lookup:
`PER_CLASS_THRESHOLDS.get(predicted_character, CONFIDENCE_THRESHOLD)`. -/
def classThreshold (predictedCharacter : String) : ℚ :=
  (PER_CLASS_THRESHOLDS.lookup predictedCharacter).getD CONFIDENCE_THRESHOLD

/-- The confidence gate: `passed_threshold` stays `True` when no probability is
available; otherwise it is `proba >= class_threshold`. -/
def passedThreshold (proba : Option ℚ) (predictedCharacter : String) : Bool :=
  match proba with
  | none => true
  | some p => classThreshold predictedCharacter ≤ p

/-- The loaded model: either it exposes `predict_proba` (probability vector over
class indices) or only `predict` (a hard class index). -/
inductive Model where
  | probabilistic (predictProba : List ℚ → List ℚ)
  | hard (predict : List ℚ → Int)

/-- Maximum of a probability list (`np.max`); 0 on the empty list. -/
def listMax : List ℚ → ℚ
  | [] => 0
  | x :: xs => xs.foldl max x

/-- First index attaining the maximum, as `np.argmax` returns it. -/
def argmaxAux : List ℚ → ℚ → Nat → Nat → Nat
  | [], _, _, bestIdx => bestIdx
  | x :: xs, best, idx, bestIdx =>
    if best < x then argmaxAux xs x (idx + 1) idx
    else argmaxAux xs best (idx + 1) bestIdx

/-- The `np.argmax` of a probability vector; 0 on the empty list. -/
def argmaxIdx : List ℚ → Nat
  | [] => 0
  | x :: xs => argmaxAux xs x 1 0

/-- The classifier adapter inside `process_frame`: with `predict_proba` it takes
the arg-max label and its probability; otherwise `predict` gives a hard label
and `proba` remains `None`. Out-of-dictionary indices map to `"Unknown"`. -/
def classify (model : Model) (dataAux : List ℚ) : String × Option ℚ :=
  match model with
  | .probabilistic f =>
    let probaVec := f dataAux
    (lookupLabel (Int.ofNat (argmaxIdx probaVec)), some (listMax probaVec))
  | .hard f => (lookupLabel (f dataAux), none)

/-- The action dispatch on an emitted label: `ACTION_GESTURES.get` then the
`SPACE` / `BACKSPACE` / `DELETE` / append-verbatim branch chain. The buffer is
a list of the strings Python appends (`text_buffer`). -/
def applyGesture (textBuffer : List String) (predictedCharacter : String) : List String :=
  match ACTION_GESTURES.lookup predictedCharacter with
  | some "SPACE" => textBuffer ++ [" "]
  | some "BACKSPACE" => textBuffer.dropLast
  | some "DELETE" => []
  | _ => textBuffer ++ [predictedCharacter]

/-- The per-session debounce and buffer state: `last_predicted_character`,
`frames_since_last_char`, `text_buffer`. Initial values: `None`, `0`, `[]`. -/
structure SessionState where
  lastPredictedCharacter : Option String
  framesSinceLastChar : Nat
  textBuffer : List String
  deriving Repr, DecidableEq

/-- The initial module-level state of the server. -/
def initState : SessionState :=
  { lastPredictedCharacter := none, framesSinceLastChar := 0, textBuffer := [] }

/-- One frame's classification outcome as it reaches the debounce logic:
the predicted character, its probability (if any), and the top-3 diagnostics. -/
structure FrameInput where
  char : String
  proba : Option ℚ
  top3 : List (String × ℚ)
  deriving Repr, DecidableEq

/-- One `sign_detected` WebSocket payload. -/
structure Emission where
  character : String
  confidence : Option ℚ
  text_buffer : String
  action : Option String
  top3 : List (String × ℚ)
  deriving Repr, DecidableEq

/-- The debounce/emit step of `process_frame` for one frame whose feature
vector reached the classifier: `frames_since_last_char += 1`, then the gate
`predicted_character != "Unknown" and passed_threshold and
(predicted_character != last_predicted_character or
 frames_since_last_char >= repeat_cooldown_frames)`; on acceptance the buffer
is edited, the state is reset and exactly one event is emitted. -/
def stepFrame (st : SessionState) (inp : FrameInput) : SessionState × List Emission :=
  let counter := st.framesSinceLastChar + 1
  if inp.char ≠ "Unknown" ∧ passedThreshold inp.proba inp.char = true ∧
      (some inp.char ≠ st.lastPredictedCharacter ∨ repeat_cooldown_frames ≤ counter) then
    let newBuffer := applyGesture st.textBuffer inp.char
    ({ lastPredictedCharacter := some inp.char, framesSinceLastChar := 0,
       textBuffer := newBuffer },
     [{ character := inp.char, confidence := inp.proba,
        text_buffer := String.join newBuffer,
        action := ACTION_GESTURES.lookup inp.char, top3 := inp.top3 }])
  else
    ({ st with framesSinceLastChar := counter }, [])

/-- Run `stepFrame` over a sequence of classified frames, collecting every
emitted event in order. -/
def runFrames (st : SessionState) : List FrameInput → SessionState × List Emission
  | [] => (st, [])
  | inp :: rest =>
    let out := stepFrame st inp
    let outRest := runFrames out.1 rest
    (outRest.1, out.2 ++ outRest.2)

/-- The response shape of the control endpoints (`jsonify` payload). -/
structure ApiResponse where
  success : Bool
  message : String
  deriving Repr, DecidableEq

/-- Module-level server state relevant to `start_detection`: the running flag,
whether `model` loaded, the text buffer, and counters for observable side
effects of spawning the worker (`detection_thread` creation; `detection_loop`
opens the camera as its first action). -/
structure ServerState where
  isDetectionActive : Bool
  modelLoaded : Bool
  textBuffer : List String
  workerThreads : Nat
  cameraOpenAttempts : Nat
  deriving Repr, DecidableEq

/-- Endpoint `start_detection`: reject when already active, reject when the model is not
loaded; otherwise set the flag, reset the buffer and spawn the worker thread
(which opens the camera). -/
def startDetection (s : ServerState) : ServerState × ApiResponse :=
  if s.isDetectionActive then
    (s, { success := false, message := "Detection already active" })
  else if s.modelLoaded = false then
    (s, { success := false, message := "Model not loaded" })
  else
    ({ s with
        isDetectionActive := true
        textBuffer := []
        workerThreads := s.workerThreads + 1
        cameraOpenAttempts := s.cameraOpenAttempts + 1 },
     { success := true, message := "Detection started" })

/-- Endpoint `clear_buffer`: reset the buffer, always succeeds. -/
def clearBuffer (s : ServerState) : ServerState × ApiResponse :=
  ({ s with textBuffer := [] }, { success := true, message := "Buffer cleared" })

/-- One hand observation: a handedness label (`Left` / `Right`, `none` when
handedness could not be read) and the landmark (x, y) coordinates. -/
structure Hand where
  handedness : Option String
  landmark : List (ℚ × ℚ)

/-- The `sort_key`: Left hands first, Right hands second, unknown last. -/
def sort_key (h : Hand) : Nat :=
  if h.handedness = some "Left" then 0
  else if h.handedness = some "Right" then 1
  else 2

/-- Minimum of a coordinate list (`min(xs)`); 0 on the empty list, which the
code never reaches because it guards on non-empty `xs`/`ys`. -/
def listMin : List ℚ → ℚ
  | [] => 0
  | x :: xs => xs.foldl min x

/-- The inner `feats` loop: for each landmark append `lm.x - min_x` then
`lm.y - min_y`. -/
def interleavedDiffs (minX minY : ℚ) : List (ℚ × ℚ) → List ℚ
  | [] => []
  | q :: qs => (q.1 - minX) :: (q.2 - minY) :: interleavedDiffs minX minY qs

/-- One hand's feature block, normalized by that hand's own minima. -/
def handBlock (h : Hand) : List ℚ :=
  interleavedDiffs (listMin (h.landmark.map Prod.fst))
    (listMin (h.landmark.map Prod.snd)) h.landmark

/-- Per-hand feature computation, skipped (`if xs and ys`) when the hand has
no landmarks. -/
def handFeats (h : Hand) : Option (List ℚ) :=
  match h.landmark with
  | [] => none
  | _ :: _ => some (handBlock h)

/-- The sort `paired.sort(key=sort_key)`: Python's sort is stable, as is insertion sort
by `≤` on the keys. -/
def sortHands (hands : List Hand) : List Hand :=
  hands.insertionSort (fun a b => sort_key a ≤ sort_key b)

/-- The feature-builder fragment of `process_frame`. With no detected hands
the landmark branch is skipped entirely: no feature vector is produced. With
hands present they are sorted Left-Right-unknown and capped at two
(`paired[:2]`), per-hand blocks are collected, and the `"No landmarks
detected"` sentinel fires exactly when no block was produced (`not x_`, which
happens iff every processed hand had an empty landmark list); otherwise the
blocks are zero-padded to two hands (`21 * 2` zeros per missing hand) and
concatenated. `none` is the "no landmarks / no features" outcome. -/
def buildFeatures (hands : List Hand) : Option (List ℚ) :=
  match hands with
  | [] => none
  | _ :: _ =>
    let perHand := ((sortHands hands).take 2).filterMap handFeats
    if perHand = [] then none
    else
      some ((perHand ++
        List.replicate (2 - perHand.length) (List.replicate 42 (0 : ℚ))).flatten)

/-- The classifier runs only on the `some` outcome that also passes the
`if len(data_aux) == 84` guard. -/
def classifierInvoked (hands : List Hand) : Bool :=
  match buildFeatures hands with
  | none => false
  | some fv => fv.length == 84

/-- A buffer avoids the action-alias letters when none of its entries is
`"S"`, `"B"` or `"D"`. -/
def bufferAvoidsSBD (buf : List String) : Prop :=
  ∀ x ∈ buf, x ≠ "S" ∧ x ≠ "B" ∧ x ≠ "D"

instance (buf : List String) : Decidable (bufferAvoidsSBD buf) := by
  unfold bufferAvoidsSBD
  infer_instance

theorem runFrames_nil (st : SessionState) : runFrames st [] = (st, []) := rfl

theorem runFrames_cons (st : SessionState) (inp : FrameInput) (rest : List FrameInput) :
    runFrames st (inp :: rest) =
      ((runFrames (stepFrame st inp).1 rest).1,
       (stepFrame st inp).2 ++ (runFrames (stepFrame st inp).1 rest).2) := rfl

theorem runFrames_append (st : SessionState) (l1 l2 : List FrameInput) :
    runFrames st (l1 ++ l2) =
      ((runFrames (runFrames st l1).1 l2).1,
       (runFrames st l1).2 ++ (runFrames (runFrames st l1).1 l2).2) := by
  induction l1 generalizing st with
  | nil => simp [runFrames_nil]
  | cons a tl ih =>
    simp only [List.cons_append, runFrames_cons, ih, List.append_assoc]

/-- An accepted frame (non-Unknown, gate-passing, and either a new character or
a counter past the cooldown) resets the debounce state, edits the buffer, and
emits exactly one event. -/
theorem stepFrame_accepted (st : SessionState) (inp : FrameInput)
    (h1 : inp.char ≠ "Unknown") (h2 : passedThreshold inp.proba inp.char = true)
    (h3 : some inp.char ≠ st.lastPredictedCharacter ∨
      repeat_cooldown_frames ≤ st.framesSinceLastChar + 1) :
    stepFrame st inp =
      ({ lastPredictedCharacter := some inp.char, framesSinceLastChar := 0,
         textBuffer := applyGesture st.textBuffer inp.char },
       [{ character := inp.char, confidence := inp.proba,
          text_buffer := String.join (applyGesture st.textBuffer inp.char),
          action := ACTION_GESTURES.lookup inp.char, top3 := inp.top3 }]) := by
  unfold stepFrame
  rw [if_pos ⟨h1, h2, h3⟩]

/-- A repeat of the held character whose incremented counter is still below
the cooldown only increments the counter and emits nothing. -/
theorem stepFrame_hold (c : String) (p : Option ℚ) (t : List (String × ℚ))
    (buf : List String) (k : Nat) (hcnt : k + 1 < repeat_cooldown_frames) :
    stepFrame ⟨some c, k, buf⟩ ⟨c, p, t⟩ = (⟨some c, k + 1, buf⟩, []) := by
  unfold stepFrame
  dsimp only
  rw [if_neg]
  rintro ⟨-, -, hor⟩
  rcases hor with hne | hge
  · exact hne rfl
  · omega

/-- Holding the same character while the counter stays below the cooldown
never emits: the counter just accumulates. -/
theorem runFrames_hold (c : String) (p : Option ℚ) (t : List (String × ℚ))
    (buf : List String) (n k : Nat) (hkn : k + n < repeat_cooldown_frames) :
    runFrames ⟨some c, k, buf⟩ (List.replicate n ⟨c, p, t⟩) =
      (⟨some c, k + n, buf⟩, []) := by
  induction n generalizing k with
  | zero => simp [runFrames_nil]
  | succ m ih =>
    rw [List.replicate_succ, runFrames_cons, stepFrame_hold c p t buf k (by omega)]
    show ((runFrames ⟨some c, k + 1, buf⟩ (List.replicate m ⟨c, p, t⟩)).1,
      [] ++ (runFrames ⟨some c, k + 1, buf⟩ (List.replicate m ⟨c, p, t⟩)).2) = _
    rw [ih (k + 1) (by omega)]
    simp only [List.nil_append]
    have hk : k + 1 + m = k + (m + 1) := by omega
    rw [hk]

/-- A run that starts fresh on an accepted character (different from the held
one) and repeats it while the counter stays short of the cooldown emits
exactly once, on the first frame. -/
theorem runFrames_burst (st : SessionState) (c : String) (p : Option ℚ)
    (t : List (String × ℚ)) (hc : c ≠ "Unknown") (hp : passedThreshold p c = true)
    (hlast : some c ≠ st.lastPredictedCharacter) (n : Nat)
    (hn : n < repeat_cooldown_frames) :
    runFrames st (List.replicate (n + 1) ⟨c, p, t⟩) =
      (⟨some c, n, applyGesture st.textBuffer c⟩,
       [{ character := c, confidence := p,
          text_buffer := String.join (applyGesture st.textBuffer c),
          action := ACTION_GESTURES.lookup c, top3 := t }]) := by
  rw [List.replicate_succ, runFrames_cons,
    stepFrame_accepted st ⟨c, p, t⟩ hc hp (Or.inl hlast)]
  show ((runFrames ⟨some c, 0, applyGesture st.textBuffer c⟩
      (List.replicate n ⟨c, p, t⟩)).1,
    [{ character := c, confidence := p,
       text_buffer := String.join (applyGesture st.textBuffer c),
       action := ACTION_GESTURES.lookup c, top3 := t }] ++
    (runFrames ⟨some c, 0, applyGesture st.textBuffer c⟩
      (List.replicate n ⟨c, p, t⟩)).2) = _
  rw [runFrames_hold c p t _ n 0 (by omega)]
  simp

/-- C3: the confidence gate accepts a classification carrying a probability iff
the confidence is at least the applicable threshold; the threshold is the
per-class override when the label has one in `PER_CLASS_THRESHOLDS` and the
global default `CONFIDENCE_THRESHOLD = 0.65` otherwise; confidence exactly
equal to the threshold is accepted, and confidence strictly below it is
rejected. -/
theorem confidence_gate_spec (predictedCharacter : String) (p : ℚ) :
    (passedThreshold (some p) predictedCharacter = true ↔
      classThreshold predictedCharacter ≤ p)
    ∧ (PER_CLASS_THRESHOLDS.lookup predictedCharacter = none →
        classThreshold predictedCharacter = CONFIDENCE_THRESHOLD)
    ∧ (∀ t, PER_CLASS_THRESHOLDS.lookup predictedCharacter = some t →
        classThreshold predictedCharacter = t)
    ∧ passedThreshold (some (classThreshold predictedCharacter)) predictedCharacter = true
    ∧ (p < classThreshold predictedCharacter →
        passedThreshold (some p) predictedCharacter = false) := by
  refine ⟨by simp [passedThreshold], ?_, ?_, by simp [passedThreshold], ?_⟩
  · intro h
    simp [classThreshold, h]
  · intro t h
    simp [classThreshold, h]
  · intro h
    simp [passedThreshold]
    exact h

/-- Witness for C3: threshold-equal confidence `0.65` is accepted for `"A"`
(no override), and `0.64` is rejected. -/
theorem confidence_gate_spec_witness :
    passedThreshold (some (65 / 100)) "A" = true
    ∧ passedThreshold (some (64 / 100)) "A" = false := by
  constructor
  · exact (confidence_gate_spec "A" (65 / 100)).1.mpr (le_of_eq (by rfl))
  · refine (confidence_gate_spec "A" (64 / 100)).2.2.2.2 ?_
    rw [show classThreshold "A" = 65 / 100 from rfl]
    norm_num

/-- C5: the action dispatcher appends exactly one space for `SPACE`, drops the
last buffer element for `BACKSPACE` (no-op on an empty buffer, so `"AB"`
becomes `"A"`), resets the buffer for `DELETE`, and appends any label outside
the action table verbatim. -/
theorem action_dispatcher_spec (buf : List String) (c : String) :
    (ACTION_GESTURES.lookup c = some "SPACE" → applyGesture buf c = buf ++ [" "])
    ∧ (ACTION_GESTURES.lookup c = some "BACKSPACE" →
        applyGesture buf c = buf.dropLast
        ∧ (buf = [] → applyGesture buf c = [])
        ∧ ∀ pre x, buf = pre ++ [x] → applyGesture buf c = pre)
    ∧ (ACTION_GESTURES.lookup c = some "DELETE" → applyGesture buf c = [])
    ∧ (ACTION_GESTURES.lookup c = none → applyGesture buf c = buf ++ [c])
    ∧ String.join (applyGesture ["A", "B"] "BACKSPACE") = "A" := by
  refine ⟨?_, ?_, ?_, ?_, by decide⟩
  · intro h
    simp [applyGesture, h]
  · intro h
    refine ⟨by simp [applyGesture, h], ?_, ?_⟩
    · intro hb
      simp [applyGesture, h, hb]
    · intro pre x hb
      simp [applyGesture, h, hb, List.dropLast_concat]
  · intro h
    simp [applyGesture, h]
  · intro h
    simp [applyGesture, h]

/-- Witness for C5: concrete dispatches of each action on concrete buffers. -/
theorem action_dispatcher_spec_witness :
    applyGesture ["A", "B"] "SPACE" = ["A", "B", " "]
    ∧ applyGesture ["A", "B"] "BACKSPACE" = ["A"]
    ∧ applyGesture [] "BACKSPACE" = []
    ∧ applyGesture ["A", "B"] "DELETE" = []
    ∧ applyGesture ["A", "B"] "Q" = ["A", "B", "Q"] := by
  refine ⟨?_, ?_, ?_, ?_, ?_⟩
  · exact (action_dispatcher_spec ["A", "B"] "SPACE").1 (by decide)
  · exact ((action_dispatcher_spec ["A", "B"] "BACKSPACE").2.1 (by decide)).2.2
      ["A"] "B" (by decide)
  · exact ((action_dispatcher_spec [] "BACKSPACE").2.1 (by decide)).2.1 (by decide)
  · exact (action_dispatcher_spec ["A", "B"] "DELETE").2.2.1 (by decide)
  · exact (action_dispatcher_spec ["A", "B"] "Q").2.2.2.1 (by decide)

/-- C6: `start_detection` while already running is rejected (the message
`"Detection already active"` renders the abstract reason `already_running`)
and leaves the whole state untouched, so no extra worker thread is spawned and
the buffer is unchanged; when the model failed to load it is rejected with
`"Model not loaded"` (the reason `model_not_loaded`), again with the state
untouched, so no camera open is attempted and the buffer is unchanged. -/
theorem start_detection_rejections (s : ServerState) :
    (s.isDetectionActive = true →
      startDetection s = (s, { success := false, message := "Detection already active" }))
    ∧ (s.isDetectionActive = false → s.modelLoaded = false →
      startDetection s = (s, { success := false, message := "Model not loaded" })) := by
  constructor
  · intro h
    simp [startDetection, h]
  · intro h h2
    simp [startDetection, h, h2]

/-- Witness for C6: a running server with one worker rejects a second start
unchanged; a stopped server without a model rejects without side effects. -/
theorem start_detection_rejections_witness :
    startDetection
        { isDetectionActive := true, modelLoaded := true, textBuffer := ["A"],
          workerThreads := 1, cameraOpenAttempts := 1 }
      = ({ isDetectionActive := true, modelLoaded := true, textBuffer := ["A"],
           workerThreads := 1, cameraOpenAttempts := 1 },
         { success := false, message := "Detection already active" })
    ∧ startDetection
        { isDetectionActive := false, modelLoaded := false, textBuffer := ["A"],
          workerThreads := 0, cameraOpenAttempts := 0 }
      = ({ isDetectionActive := false, modelLoaded := false, textBuffer := ["A"],
           workerThreads := 0, cameraOpenAttempts := 0 },
         { success := false, message := "Model not loaded" }) := by
  constructor
  · exact (start_detection_rejections _).1 rfl
  · exact (start_detection_rejections _).2 rfl rfl

/-- C7: when the loaded model exposes no `predict_proba`, the classifier
adapter returns its label with `proba = None`, and that classification
unconditionally passes the confidence gate. -/
theorem hard_classifier_passthrough (predict : List ℚ → Int) (dataAux : List ℚ)
    (_hlen : dataAux.length = 84) :
    (classify (Model.hard predict) dataAux).2 = none
    ∧ passedThreshold (classify (Model.hard predict) dataAux).2
        (classify (Model.hard predict) dataAux).1 = true := by
  simp [classify, passedThreshold]

/-- Witness for C7: a constant hard classifier on an 84-element vector. -/
theorem hard_classifier_passthrough_witness :
    (classify (Model.hard fun _ => 9) (List.replicate 84 (0 : ℚ))).2 = none
    ∧ passedThreshold (classify (Model.hard fun _ => 9) (List.replicate 84 (0 : ℚ))).2
        (classify (Model.hard fun _ => 9) (List.replicate 84 (0 : ℚ))).1 = true :=
  hard_classifier_passthrough (fun _ => 9) (List.replicate 84 (0 : ℚ)) (by simp)

/-- C9 (implicit): every successful `start_detection` resets the text buffer
to empty when spawning the worker thread, so buffer contents never persist
from one detection session into the next. -/
theorem start_resets_buffer (s : ServerState)
    (hactive : s.isDetectionActive = false) (hmodel : s.modelLoaded = true) :
    (startDetection s).2.success = true
    ∧ (startDetection s).1.textBuffer = []
    ∧ (startDetection s).1.workerThreads = s.workerThreads + 1 := by
  simp [startDetection, hactive, hmodel]

/-- C1: with cooldown `repeat_cooldown_frames = 5`, feeding the debounce state
machine the same accepted (non-Unknown, gate-passing) character on
consecutive processed frames, starting from a state that was not already
holding it, emits exactly once over `cooldown - 1 = 4` frames — already on
the first frame alone — and exactly twice over `cooldown + 1 = 6` frames:
after 5 frames only one emission has happened and the counter stands at 4,
so the second emission falls on frame 6, where the incremented counter
reaches the cooldown. -/
theorem debounce_idempotence (st : SessionState) (c : String) (p : Option ℚ)
    (t : List (String × ℚ)) (hc : c ≠ "Unknown")
    (hp : passedThreshold p c = true) (hlast : some c ≠ st.lastPredictedCharacter) :
    (runFrames st (List.replicate (repeat_cooldown_frames - 1) ⟨c, p, t⟩)).2.length = 1
    ∧ (runFrames st (List.replicate 1 ⟨c, p, t⟩)).2.length = 1
    ∧ (runFrames st (List.replicate (repeat_cooldown_frames + 1) ⟨c, p, t⟩)).2.length = 2
    ∧ (runFrames st (List.replicate repeat_cooldown_frames ⟨c, p, t⟩)).2.length = 1
    ∧ (runFrames st (List.replicate repeat_cooldown_frames ⟨c, p, t⟩)).1.framesSinceLastChar
        + 1 = repeat_cooldown_frames := by
  have h5 : runFrames st (List.replicate 5 ⟨c, p, t⟩) =
      (⟨some c, 4, applyGesture st.textBuffer c⟩,
       [{ character := c, confidence := p,
          text_buffer := String.join (applyGesture st.textBuffer c),
          action := ACTION_GESTURES.lookup c, top3 := t }]) :=
    runFrames_burst st c p t hc hp hlast 4 (by decide)
  refine ⟨?_, ?_, ?_, ?_, ?_⟩
  · show (runFrames st (List.replicate (3 + 1) ⟨c, p, t⟩)).2.length = 1
    rw [runFrames_burst st c p t hc hp hlast 3 (by decide)]
    rfl
  · show (runFrames st (List.replicate (0 + 1) ⟨c, p, t⟩)).2.length = 1
    rw [runFrames_burst st c p t hc hp hlast 0 (by decide)]
    rfl
  · show (runFrames st (List.replicate 5 ⟨c, p, t⟩ ++ List.replicate 1 ⟨c, p, t⟩)).2.length = 2
    rw [runFrames_append, h5]
    dsimp only
    rw [List.replicate_one, runFrames_cons,
      stepFrame_accepted ⟨some c, 4, applyGesture st.textBuffer c⟩ ⟨c, p, t⟩ hc hp
        (Or.inr (le_of_eq (by rfl)))]
    rfl
  · show (runFrames st (List.replicate 5 ⟨c, p, t⟩)).2.length = 1
    rw [h5]
    rfl
  · show (runFrames st (List.replicate 5 ⟨c, p, t⟩)).1.framesSinceLastChar + 1 = 5
    rw [h5]

/-- Witness for C1: character `"H"` from the initial state with a gate-passing
classification (hard classifier, no probability). -/
theorem debounce_idempotence_witness :
    (runFrames initState
        (List.replicate (repeat_cooldown_frames - 1) ⟨"H", none, []⟩)).2.length = 1
    ∧ (runFrames initState (List.replicate 1 ⟨"H", none, []⟩)).2.length = 1
    ∧ (runFrames initState
        (List.replicate (repeat_cooldown_frames + 1) ⟨"H", none, []⟩)).2.length = 2
    ∧ (runFrames initState
        (List.replicate repeat_cooldown_frames ⟨"H", none, []⟩)).2.length = 1
    ∧ (runFrames initState
        (List.replicate repeat_cooldown_frames ⟨"H", none, []⟩)).1.framesSinceLastChar
        + 1 = repeat_cooldown_frames :=
  debounce_idempotence initState "H" none [] (by decide) (by decide) (by decide)

/-- C2: switching from a held character `a` to a distinct accepted character
`b` on the very next processed frame emits `b` immediately — one event, and
the debounce state becomes `Holding(b, 0)` — no matter how many frames `a`
had been held. -/
theorem debounce_responsiveness (a b : String) (n : Nat) (buf : List String)
    (p : Option ℚ) (t : List (String × ℚ)) (hb : b ≠ "Unknown")
    (hp : passedThreshold p b = true) (hab : b ≠ a) :
    stepFrame ⟨some a, n, buf⟩ ⟨b, p, t⟩ =
      (⟨some b, 0, applyGesture buf b⟩,
       [{ character := b, confidence := p,
          text_buffer := String.join (applyGesture buf b),
          action := ACTION_GESTURES.lookup b, top3 := t }]) :=
  stepFrame_accepted ⟨some a, n, buf⟩ ⟨b, p, t⟩ hb hp
    (Or.inl fun h => hab (Option.some.inj h))

/-- Witness for C2: switching from `"A"` (held 2 frames, below cooldown) to
`"I"` emits `"I"` at once and resets the counter. -/
theorem debounce_responsiveness_witness :
    stepFrame ⟨some "A", 2, ["A"]⟩ ⟨"I", none, []⟩ =
      (⟨some "I", 0, ["A", "I"]⟩,
       [{ character := "I", confidence := none, text_buffer := "AI",
          action := none, top3 := [] }]) := by
  have h := debounce_responsiveness "A" "I" 2 ["A"] none [] (by decide) (by decide)
    (by decide)
  rw [h]
  decide

/-- C8: every accepted emission publishes exactly one notification event,
carrying the emitted character, its confidence, the updated buffer joined to
a single string, the resolved action (if any), and the top-3 candidates; in
particular emitting `"H"` then `"I"` from the initial state yields buffer
`"HI"` and exactly two events. -/
theorem emission_notification (st : SessionState) (inp : FrameInput)
    (h1 : inp.char ≠ "Unknown") (h2 : passedThreshold inp.proba inp.char = true)
    (h3 : some inp.char ≠ st.lastPredictedCharacter ∨
      repeat_cooldown_frames ≤ st.framesSinceLastChar + 1) :
    (stepFrame st inp).2 =
      [{ character := inp.char, confidence := inp.proba,
         text_buffer := String.join ((stepFrame st inp).1.textBuffer),
         action := ACTION_GESTURES.lookup inp.char, top3 := inp.top3 }]
    ∧ (stepFrame st inp).2.length = 1
    ∧ (runFrames initState [⟨"H", none, []⟩, ⟨"I", none, []⟩]).2.length = 2
    ∧ String.join (runFrames initState [⟨"H", none, []⟩, ⟨"I", none, []⟩]).1.textBuffer
        = "HI" := by
  refine ⟨?_, ?_, by decide, by decide⟩
  · rw [stepFrame_accepted st inp h1 h2 h3]
  · rw [stepFrame_accepted st inp h1 h2 h3]
    rfl

/-- Witness for C8: the accepted frame `"H"` from the initial state. -/
theorem emission_notification_witness :
    (stepFrame initState ⟨"H", none, []⟩).2 =
      [{ character := "H", confidence := none,
         text_buffer := String.join ((stepFrame initState ⟨"H", none, []⟩).1.textBuffer),
         action := ACTION_GESTURES.lookup "H", top3 := [] }]
    ∧ (stepFrame initState ⟨"H", none, []⟩).2.length = 1
    ∧ (runFrames initState [⟨"H", none, []⟩, ⟨"I", none, []⟩]).2.length = 2
    ∧ String.join (runFrames initState [⟨"H", none, []⟩, ⟨"I", none, []⟩]).1.textBuffer
        = "HI" :=
  emission_notification initState ⟨"H", none, []⟩ (by decide) (by decide) (by decide)

/-- The action dispatch never introduces `"S"`, `"B"` or `"D"` into the
buffer: those labels alias actions, and only non-key labels are appended
verbatim. -/
theorem applyGesture_avoidsSBD (buf : List String) (c : String)
    (h : bufferAvoidsSBD buf) : bufferAvoidsSBD (applyGesture buf c) := by
  by_cases h1 : c = "SPACE"
  · subst h1
    show bufferAvoidsSBD (buf ++ [" "])
    intro x hx
    rcases List.mem_append.mp hx with hxa | hxb
    · exact h x hxa
    · simp at hxb
      subst hxb
      exact ⟨by decide, by decide, by decide⟩
  by_cases h2 : c = "BACKSPACE"
  · subst h2
    show bufferAvoidsSBD buf.dropLast
    intro x hx
    exact h x ((List.dropLast_sublist buf).subset hx)
  by_cases h3 : c = "DELETE"
  · subst h3
    show bufferAvoidsSBD ([] : List String)
    intro x hx
    simp at hx
  by_cases h4 : c = "S"
  · subst h4
    show bufferAvoidsSBD (buf ++ [" "])
    intro x hx
    rcases List.mem_append.mp hx with hxa | hxb
    · exact h x hxa
    · simp at hxb
      subst hxb
      exact ⟨by decide, by decide, by decide⟩
  by_cases h5 : c = "B"
  · subst h5
    show bufferAvoidsSBD buf.dropLast
    intro x hx
    exact h x ((List.dropLast_sublist buf).subset hx)
  by_cases h6 : c = "D"
  · subst h6
    show bufferAvoidsSBD ([] : List String)
    intro x hx
    simp at hx
  have e1 : (c == "SPACE") = false := beq_eq_false_iff_ne.mpr h1
  have e2 : (c == "BACKSPACE") = false := beq_eq_false_iff_ne.mpr h2
  have e3 : (c == "DELETE") = false := beq_eq_false_iff_ne.mpr h3
  have e4 : (c == "S") = false := beq_eq_false_iff_ne.mpr h4
  have e5 : (c == "B") = false := beq_eq_false_iff_ne.mpr h5
  have e6 : (c == "D") = false := beq_eq_false_iff_ne.mpr h6
  have hlook : ACTION_GESTURES.lookup c = none := by
    simp [ACTION_GESTURES, List.lookup, e1, e2, e3, e4, e5, e6]
  have happ : applyGesture buf c = buf ++ [c] := by
    unfold applyGesture
    rw [hlook]
  rw [happ]
  intro x hx
  rcases List.mem_append.mp hx with hxa | hxb
  · exact h x hxa
  · simp at hxb
    subst hxb
    exact ⟨h4, h5, h6⟩

/-- C10 (implicit): the single-letter labels `"S"`, `"B"`, `"D"` alias the
actions `SPACE`, `BACKSPACE`, `DELETE` in the shipped action table even
though all three sit in the 35-symbol label set, so emitting them edits the
buffer instead of appending the letter; consequently a buffer free of those
characters stays free of them under the frame step, `start_detection` and
`clear_buffer`. -/
theorem sbd_never_in_buffer (st : SessionState) (inp : FrameInput) (s : ServerState) :
    ACTION_GESTURES.lookup "S" = some "SPACE"
    ∧ ACTION_GESTURES.lookup "B" = some "BACKSPACE"
    ∧ ACTION_GESTURES.lookup "D" = some "DELETE"
    ∧ "S" ∈ labels_dict.map Prod.snd
    ∧ "B" ∈ labels_dict.map Prod.snd
    ∧ "D" ∈ labels_dict.map Prod.snd
    ∧ (bufferAvoidsSBD st.textBuffer →
        bufferAvoidsSBD (stepFrame st inp).1.textBuffer)
    ∧ (bufferAvoidsSBD s.textBuffer →
        bufferAvoidsSBD (startDetection s).1.textBuffer)
    ∧ bufferAvoidsSBD (clearBuffer s).1.textBuffer := by
  refine ⟨by decide, by decide, by decide, by decide, by decide, by decide, ?_, ?_, ?_⟩
  · intro h
    unfold stepFrame
    dsimp only
    split
    · exact applyGesture_avoidsSBD _ _ h
    · exact h
  · intro h
    unfold startDetection
    split
    · exact h
    · split
      · exact h
      · intro x hx
        simp at hx
  · intro x hx
    simp [clearBuffer] at hx

/-- Witness for C10: concrete step, start and clear preserving the invariant
(the emitted `"B"` erases a character instead of appending one). -/
theorem sbd_never_in_buffer_witness :
    bufferAvoidsSBD (stepFrame ⟨some "A", 0, ["H", "I"]⟩ ⟨"B", none, []⟩).1.textBuffer
    ∧ bufferAvoidsSBD (startDetection ⟨false, true, ["H"], 0, 0⟩).1.textBuffer
    ∧ bufferAvoidsSBD (clearBuffer ⟨false, true, ["H"], 0, 0⟩).1.textBuffer := by
  refine ⟨?_, ?_, ?_⟩
  · exact (sbd_never_in_buffer ⟨some "A", 0, ["H", "I"]⟩ ⟨"B", none, []⟩
      ⟨false, true, ["H"], 0, 0⟩).2.2.2.2.2.2.1 (by decide)
  · exact (sbd_never_in_buffer ⟨some "A", 0, ["H", "I"]⟩ ⟨"B", none, []⟩
      ⟨false, true, ["H"], 0, 0⟩).2.2.2.2.2.2.2.1 (by decide)
  · exact (sbd_never_in_buffer ⟨some "A", 0, ["H", "I"]⟩ ⟨"B", none, []⟩
      ⟨false, true, ["H"], 0, 0⟩).2.2.2.2.2.2.2.2

/-- Witness for C9: starting from a stopped server whose buffer still holds
text from a previous session empties the buffer. -/
theorem start_resets_buffer_witness :
    (startDetection
        { isDetectionActive := false, modelLoaded := true, textBuffer := ["O", "L", "D"],
          workerThreads := 0, cameraOpenAttempts := 0 }).2.success = true
    ∧ (startDetection
        { isDetectionActive := false, modelLoaded := true, textBuffer := ["O", "L", "D"],
          workerThreads := 0, cameraOpenAttempts := 0 }).1.textBuffer = []
    ∧ (startDetection
        { isDetectionActive := false, modelLoaded := true, textBuffer := ["O", "L", "D"],
          workerThreads := 0, cameraOpenAttempts := 0 }).1.workerThreads = 0 + 1 :=
  start_resets_buffer _ rfl rfl

theorem interleavedDiffs_length (minX minY : ℚ) (l : List (ℚ × ℚ)) :
    (interleavedDiffs minX minY l).length = 2 * l.length := by
  induction l with
  | nil => rfl
  | cons q qs ih =>
    simp [interleavedDiffs, ih]
    omega

theorem handBlock_length (h : Hand) : (handBlock h).length = 2 * h.landmark.length :=
  interleavedDiffs_length _ _ _

theorem handFeats_of_ne_nil (h : Hand) (hne : h.landmark ≠ []) :
    handFeats h = some (handBlock h) := by
  unfold handFeats
  obtain ⟨q, qs, hql⟩ := List.exists_cons_of_ne_nil hne
  rw [hql]

/-- Sorting a two-hand list: stable insertion sort keeps the first hand first
exactly when its key is not larger. -/
theorem sortHands_pair (h1 h2 : Hand) :
    sortHands [h1, h2] =
      if sort_key h1 ≤ sort_key h2 then [h1, h2] else [h2, h1] := by
  simp [sortHands, List.insertionSort, List.orderedInsert]

theorem buildFeatures_singleton (h : Hand) (hne : h.landmark ≠ []) :
    buildFeatures [h] = some (handBlock h ++ List.replicate 42 (0 : ℚ)) := by
  have hsort : sortHands [h] = [h] := rfl
  simp [buildFeatures, hsort, handFeats_of_ne_nil h hne]

theorem buildFeatures_pair (h1 h2 : Hand) (hne1 : h1.landmark ≠ [])
    (hne2 : h2.landmark ≠ []) :
    buildFeatures [h1, h2] =
      some (if sort_key h1 ≤ sort_key h2 then handBlock h1 ++ handBlock h2
            else handBlock h2 ++ handBlock h1) := by
  by_cases hk : sort_key h1 ≤ sort_key h2
  · simp [buildFeatures, sortHands_pair, hk, handFeats_of_ne_nil h1 hne1,
      handFeats_of_ne_nil h2 hne2]
  · simp [buildFeatures, sortHands_pair, hk, handFeats_of_ne_nil h1 hne1,
      handFeats_of_ne_nil h2 hne2]

/-- With at least one hand of the standard 21-landmark topology, the builder
always produces a feature vector of exactly 84 entries. -/
theorem buildFeatures_cons (hh : Hand) (tt : List Hand)
    (h21 : ∀ h ∈ hh :: tt, h.landmark.length = 21) :
    ∃ fv, buildFeatures (hh :: tt) = some fv ∧ fv.length = 84 := by
  have hperm : (sortHands (hh :: tt)).Perm (hh :: tt) :=
    List.perm_insertionSort _ _
  have hlen : (sortHands (hh :: tt)).length = tt.length + 1 := by
    rw [hperm.length_eq]
    rfl
  obtain ⟨h0, rest, hsort⟩ : ∃ h0 rest, sortHands (hh :: tt) = h0 :: rest := by
    cases hs : sortHands (hh :: tt) with
    | nil => rw [hs] at hlen; simp at hlen
    | cons a b => exact ⟨a, b, rfl⟩
  have hm0 : h0 ∈ hh :: tt := by
    refine hperm.mem_iff.mp ?_
    rw [hsort]
    exact List.mem_cons_self _ _
  have hne0 : h0.landmark ≠ [] := by
    intro hnil
    have := h21 h0 hm0
    rw [hnil] at this
    simp at this
  cases rest with
  | nil =>
    have hpH : ((sortHands (hh :: tt)).take 2).filterMap handFeats = [handBlock h0] := by
      rw [hsort]
      rw [show ([h0] : List Hand).take 2 = [h0] from rfl]
      rw [List.filterMap_cons_some (handFeats_of_ne_nil h0 hne0)]
      rfl
    refine ⟨handBlock h0 ++ List.replicate 42 (0 : ℚ), ?_, ?_⟩
    · simp [buildFeatures, hpH]
    · simp [handBlock_length, h21 h0 hm0]
  | cons r1 rest2 =>
    have hm1 : r1 ∈ hh :: tt := by
      refine hperm.mem_iff.mp ?_
      rw [hsort]
      exact List.mem_cons_of_mem _ (List.mem_cons_self _ _)
    have hne1 : r1.landmark ≠ [] := by
      intro hnil
      have := h21 r1 hm1
      rw [hnil] at this
      simp at this
    have hpH : ((sortHands (hh :: tt)).take 2).filterMap handFeats =
        [handBlock h0, handBlock r1] := by
      rw [hsort]
      rw [show (h0 :: r1 :: rest2).take 2 = [h0, r1] from rfl]
      rw [List.filterMap_cons_some (handFeats_of_ne_nil h0 hne0),
        List.filterMap_cons_some (handFeats_of_ne_nil r1 hne1)]
      rfl
    refine ⟨handBlock h0 ++ handBlock r1, ?_, ?_⟩
    · simp [buildFeatures, hpH]
    · simp [handBlock_length, h21 h0 hm0, h21 r1 hm1]

/-- C4: for hands carrying the standard 21 landmarks, the builder yields the
"no landmarks" outcome — and the classifier adapter is not invoked — exactly
when zero hands were observed; for 1 or 2 hands it produces exactly 84
features and the classifier runs: one hand gives that hand's
`(x - min_x, y - min_y)` block followed by 42 zeros of padding, two hands
give the two blocks concatenated in Left-before-Right-before-unknown order. -/
theorem feature_builder_spec (hands : List Hand)
    (h21 : ∀ h ∈ hands, h.landmark.length = 21) :
    (buildFeatures hands = none ↔ hands = [])
    ∧ (classifierInvoked hands = false ↔ hands = [])
    ∧ (∀ h, hands = [h] →
        buildFeatures hands = some (handBlock h ++ List.replicate 42 (0 : ℚ)))
    ∧ (∀ h1 h2, hands = [h1, h2] →
        buildFeatures hands =
          some (if sort_key h1 ≤ sort_key h2 then handBlock h1 ++ handBlock h2
                else handBlock h2 ++ handBlock h1))
    ∧ (hands.length = 1 ∨ hands.length = 2 →
        ∃ fv, buildFeatures hands = some fv ∧ fv.length = 84
          ∧ classifierInvoked hands = true) := by
  cases hands with
  | nil =>
    refine ⟨by simp [buildFeatures], by simp [classifierInvoked, buildFeatures], ?_, ?_, ?_⟩
    · intro h hcontra
      exact absurd hcontra (by simp)
    · intro h1 h2 hcontra
      exact absurd hcontra (by simp)
    · intro hcontra
      rcases hcontra with hc | hc <;> simp at hc
  | cons hh tt =>
    obtain ⟨fv, hfv, hfv84⟩ := buildFeatures_cons hh tt h21
    have hinv : classifierInvoked (hh :: tt) = true := by
      simp [classifierInvoked, hfv, hfv84]
    refine ⟨?_, ?_, ?_, ?_, ?_⟩
    · rw [hfv]
      simp
    · rw [hinv]
      simp
    · rintro h heq
      rw [heq]
      refine buildFeatures_singleton h ?_
      intro hnil
      have h1 : h ∈ hh :: tt := by rw [heq]; exact List.mem_cons_self _ _
      have := h21 h h1
      rw [hnil] at this
      simp at this
    · rintro h1 h2 heq
      rw [heq]
      have hm1 : h1 ∈ hh :: tt := by rw [heq]; exact List.mem_cons_self _ _
      have hm2 : h2 ∈ hh :: tt := by
        rw [heq]
        exact List.mem_cons_of_mem _ (List.mem_cons_self _ _)
      refine buildFeatures_pair h1 h2 ?_ ?_
      · intro hnil
        have := h21 h1 hm1
        rw [hnil] at this
        simp at this
      · intro hnil
        have := h21 h2 hm2
        rw [hnil] at this
        simp at this
    · intro _
      exact ⟨fv, hfv, hfv84, hinv⟩

/-- Witness for C4: a single Right hand with 21 landmarks at the origin. -/
theorem feature_builder_spec_witness :
    (buildFeatures [⟨some "Right", List.replicate 21 ((0 : ℚ), (0 : ℚ))⟩] = none
      ↔ [(⟨some "Right", List.replicate 21 ((0 : ℚ), (0 : ℚ))⟩ : Hand)] = [])
    ∧ ∃ fv, buildFeatures [⟨some "Right", List.replicate 21 ((0 : ℚ), (0 : ℚ))⟩]
        = some fv ∧ fv.length = 84
        ∧ classifierInvoked [⟨some "Right", List.replicate 21 ((0 : ℚ), (0 : ℚ))⟩] = true := by
  have h := feature_builder_spec [⟨some "Right", List.replicate 21 ((0 : ℚ), (0 : ℚ))⟩]
    (by intro h hm; simp at hm; rw [hm]; rfl)
  exact ⟨h.1, h.2.2.2.2 (Or.inl rfl)⟩

end CtrlA
